import Mathlib

/-!
Verification of the SPDY/3 server-side stream engine
(`spdy3/response_stream.go`): the per-stream half-close state machine,
the HTTP response-writer contract, inbound frame dispatch, flow control
interaction, and the SYN_STREAM frame codec.

The definitions are a shallow embedding of the Go source.  Collaborators
that live outside the given source file (`common.StreamState`,
`flowControl`, byte helpers of the `common` package) are modelled from
the specification, as marked on each definition.
-/

namespace Spdy3

/-- Modelled from the spec: `common.StreamState`, the four-value
half-close automaton, represented as the pair (local-closed,
remote-closed). -/
structure StreamState where
  localClosed : Bool
  remoteClosed : Bool
deriving DecidableEq

/-- Modelled from the spec: `OpenHere()` — the local side has not sent FIN. -/
def StreamState.OpenHere (s : StreamState) : Bool := !s.localClosed

/-- Modelled from the spec: `OpenThere()` — the remote side has not sent FIN. -/
def StreamState.OpenThere (s : StreamState) : Bool := !s.remoteClosed

/-- Modelled from the spec: `ClosedHere()`. -/
def StreamState.ClosedHere (s : StreamState) : Bool := s.localClosed

/-- Modelled from the spec: `ClosedThere()`. -/
def StreamState.ClosedThere (s : StreamState) : Bool := s.remoteClosed

/-- Modelled from the spec: `Closed()` — both sides closed (terminal state). -/
def StreamState.Closed (s : StreamState) : Bool := s.localClosed && s.remoteClosed

/-- Modelled from the spec: `CloseHere()` moves OPEN to HALF_CLOSED_LOCAL
and HALF_CLOSED_REMOTE to CLOSED; idempotent. -/
def StreamState.CloseHere (s : StreamState) : StreamState :=
  { s with localClosed := true }

/-- Modelled from the spec: `CloseThere()` moves OPEN to HALF_CLOSED_REMOTE
and HALF_CLOSED_LOCAL to CLOSED; idempotent. -/
def StreamState.CloseThere (s : StreamState) : StreamState :=
  { s with remoteClosed := true }

/-- Modelled from the spec: `Close()` forces the CLOSED state. -/
def StreamState.Close (_ : StreamState) : StreamState :=
  { localClosed := true, remoteClosed := true }

/-- `http.Header`: a map from header names to value lists, embedded as an
association list. -/
def HeaderMap := List (String × List String)
deriving DecidableEq

/-- Replace the whole value list of key `k` (Go `older[name] = values`). -/
def setEntry (h : HeaderMap) (k : String) (vs : List String) : HeaderMap :=
  (List.filter (fun kv => !(kv.1 == k)) h) ++ [(k, vs)]

/-- `http.Header.Set`: replace the values of `k` by the single value `v`. -/
def setH (h : HeaderMap) (k v : String) : HeaderMap :=
  setEntry h k [v]

/-- Modelled from the spec: `common.UpdateHeader(older, newer)` merges the
newer header map into the older one, entry by entry. -/
def updateHeader (older newer : HeaderMap) : HeaderMap :=
  newer.foldl (fun acc kv => setEntry acc kv.1 kv.2) older

/-- `common.FLAG_FIN`. -/
def FLAG_FIN : Nat := 1

/-- `common.FLAG_UNIDIRECTIONAL`. -/
def FLAG_UNIDIRECTIONAL : Nat := 2

/-- Modelled from the spec: `common.RST_STREAM_FLOW_CONTROL_ERROR`, the
SPDY/3 FLOW_CONTROL_ERROR status code. -/
def RST_STREAM_FLOW_CONTROL_ERROR : Nat := 7

/-- Modelled from the spec: `common.MAX_FRAME_SIZE` is 2^24 - 1. -/
def MAX_FRAME_SIZE : Nat := 16777215

/-- Modelled from the spec: `common.MAX_DATA_SIZE`, the engine chunks
outbound data into 4 KiB payloads. -/
def MAX_DATA_SIZE : Nat := 4096

/-- `Flags.FIN()`: bit 0x01 of the flags byte. -/
def finFlag (flags : Nat) : Bool := flags % 2 == 1

/-- `Flags.UNIDIRECTIONAL()`: bit 0x02 of the flags byte. -/
def uniFlag (flags : Nat) : Bool := flags / 2 % 2 == 1

/-- The frames the stream engine exchanges (`frames` package subset used
by `ResponseStream`).  Payload bytes are naturals below 256. -/
inductive Frame where
  | SYN_REPLY (streamID : Nat) (flags : Nat) (header : HeaderMap)
  | DATA (streamID : Nat) (flags : Nat) (payload : List Nat)
  | HEADERS (streamID : Nat) (header : HeaderMap)
  | RST_STREAM (streamID : Nat) (status : Nat)
  | WINDOW_UPDATE (streamID : Nat) (deltaWindowSize : Nat)
deriving DecidableEq

/-- Modelled from the spec: the per-stream `flowControl` record —
`send_window` and `recv_window` (signed 32-bit credit), the `paused`
flag and the `pending` buffer of bytes awaiting credit. -/
structure flowControl where
  streamID : Nat
  sendWindow : Int
  recvWindow : Int
  initialWindow : Int
  paused : Bool
  pending : List Nat
deriving DecidableEq

/-- Modelled from the spec: a fresh flow controller with the negotiated
initial window on both sides. -/
def newFlowControl (streamID : Nat) (initialWindow : Int) : flowControl :=
  { streamID := streamID
    sendWindow := initialWindow
    recvWindow := initialWindow
    initialWindow := initialWindow
    paused := false
    pending := [] }

/-- Modelled from the spec: `flowControl.Write(bytes)` sends as much as
the send window permits as a `DATA` frame, stashes the remainder in
`pending` and sets `paused`; all bytes count as accepted. -/
def flowControl.Write (f : flowControl) (data : List Nat) : flowControl × List Frame :=
  if data.isEmpty then (f, [])
  else if f.paused then ({ f with pending := f.pending ++ data }, [])
  else
    let w := min f.sendWindow.toNat data.length
    let sendable := data.take w
    let rest := data.drop w
    let frames := if sendable.isEmpty then [] else [Frame.DATA f.streamID 0 sendable]
    ({ f with sendWindow := f.sendWindow - sendable.length
              pending := rest
              paused := !rest.isEmpty }, frames)

/-- Modelled from the spec: `flowControl.Receive(bytes)` records the
payload against `recv_window` and replenishes with a `WINDOW_UPDATE`
once the window has drained by at least half the initial window. -/
def flowControl.Receive (f : flowControl) (data : List Nat) : flowControl × List Frame :=
  let rw := f.recvWindow - data.length
  if f.initialWindow - rw ≥ f.initialWindow / 2 then
    ({ f with recvWindow := f.initialWindow },
     [Frame.WINDOW_UPDATE f.streamID (f.initialWindow - rw).toNat])
  else
    ({ f with recvWindow := rw }, [])

/-- Modelled from the spec: `flowControl.UpdateWindow(delta)` adds `delta`
to `send_window`, failing with a flow-control error if the sum would
exceed 2^31 - 1; on success flushes pending bytes as far as the new
credit permits. -/
def flowControl.UpdateWindow (f : flowControl) (delta : Nat) :
    Except String (flowControl × List Frame) :=
  if f.sendWindow + (delta : Int) > 2147483647 then
    Except.error "Error: flow control window exceeds maximum."
  else
    let f1 := { f with sendWindow := f.sendWindow + (delta : Int) }
    if f1.paused then
      let w := min f1.sendWindow.toNat f1.pending.length
      let sendable := f1.pending.take w
      let rest := f1.pending.drop w
      let frames := if sendable.isEmpty then [] else [Frame.DATA f1.streamID 0 sendable]
      Except.ok ({ f1 with sendWindow := f1.sendWindow - sendable.length
                           pending := rest
                           paused := !rest.isEmpty }, frames)
    else
      Except.ok (f1, [])

/-- Modelled from the spec: `flowControl.Flush()` unconditionally
transmits the pending buffer as `DATA` (it may exceed the window). -/
def flowControl.Flush (f : flowControl) : flowControl × List Frame :=
  if f.pending.isEmpty then ({ f with paused := false }, [])
  else
    ({ f with paused := false
              pending := []
              sendWindow := f.sendWindow - f.pending.length },
     [Frame.DATA f.streamID 0 f.pending])

/-- Modelled from the spec: `flowControl.Paused()`. -/
def flowControl.Paused (f : flowControl) : Bool := f.paused

/-- Modelled from the spec: `flowControl.Close()` drops the pending
buffer at stream shutdown. -/
def flowControl.Close (f : flowControl) : flowControl :=
  { f with pending := [] }

/-- An HTTP handler reference (`http.Handler`); `defaultServeMux` stands
for `http.DefaultServeMux`, which is never nil. -/
inductive Handler where
  | defaultServeMux
  | user (id : Nat)
deriving DecidableEq

/-- `frames.SYN_STREAM` / `SynStreamFrame`: the SYN_STREAM control frame.
`rawHeader` is the compressed header block (`none` stands for the Go nil
slice), `Header` the decompressed header map. -/
structure SynStreamFrame where
  Flags : Nat
  StreamID : Nat
  AssocStreamID : Nat
  Priority : Nat
  Slot : Nat
  Header : HeaderMap
  rawHeader : Option (List Nat)
deriving DecidableEq

/-- `ResponseStream`: the server-side stream record.  `stopFired` models
whether the connection-wide stop channel has fired; `shutdownDone`
models the `sync.Once` shutdown latch; `handler = none` models the nil
handler pointer after shutdown; `ready = true` models the closed `ready`
channel. -/
structure ResponseStream where
  streamID : Nat
  flow : flowControl
  requestBody : List Nat
  state : StreamState
  header : HeaderMap
  priority : Nat
  unidirectional : Bool
  responseCode : Int
  ready : Bool
  wroteHeader : Bool
  handler : Option Handler
  stopFired : Bool
  shutdownDone : Bool
deriving DecidableEq

/-- `NewResponseStream`: builds the stream from the peer's SYN_STREAM.
A nil handler argument is replaced by `http.DefaultServeMux`; a FIN on
the SYN_STREAM closes `ready` and the remote side at once.  The flow
controller is attached by the connection with the negotiated initial
window (modelled from the spec by the `initialWindow` argument). -/
def newResponseStream (initialWindow : Int) (frame : SynStreamFrame)
    (handler : Option Handler) : ResponseStream :=
  { streamID := frame.StreamID
    flow := newFlowControl frame.StreamID initialWindow
    requestBody := []
    state := if finFlag frame.Flags then StreamState.CloseThere ⟨false, false⟩
             else ⟨false, false⟩
    header := []
    priority := frame.Priority
    unidirectional := uniFlag frame.Flags
    responseCode := 0
    ready := finFlag frame.Flags
    wroteHeader := false
    handler := some (handler.getD Handler.defaultServeMux)
    stopFired := false
    shutdownDone := false }

/-- `ResponseStream.closed()`: true once the stream has been torn down
(references dropped by `shutdown`) or the connection-wide stop channel
has fired. -/
def ResponseStream.closed (s : ResponseStream) : Bool :=
  s.handler.isNone || s.stopFired

/-- `ResponseStream.WriteHeader(code)`: stamps `:status` and `:version`,
drains the pending header map into a SYN_REPLY and emits it; a 204, 304
or 1xx status carries FIN and half-closes the local side.  Ignored on a
unidirectional stream or after a first call. -/
def ResponseStream.WriteHeader (s : ResponseStream) (code : Int) :
    ResponseStream × List Frame :=
  if s.unidirectional then (s, [])
  else if s.wroteHeader then (s, [])
  else
    let hdr := setH (setH s.header ":status" (toString code)) ":version" "HTTP/1.1"
    let noBody := code = 204 ∨ code = 304 ∨ Int.tdiv code 100 = 1
    let flags := if noBody then FLAG_FIN else 0
    let st := if noBody then s.state.CloseHere else s.state
    ({ s with wroteHeader := true
              responseCode := code
              header := []
              state := st },
     [Frame.SYN_REPLY s.streamID flags hdr])

/-- `ResponseStream.writeHeader()` (the lowercase helper): flushes any
pending header deltas as a HEADERS frame. -/
def ResponseStream.writeHeader (s : ResponseStream) :
    ResponseStream × List Frame :=
  if s.header.isEmpty || s.unidirectional then (s, [])
  else ({ s with header := [] }, [Frame.HEADERS s.streamID s.header])

/-- The chunking loop of `ResponseStream.Write`: pieces of at most
`MAX_DATA_SIZE` bytes are submitted to the flow controller in order. -/
def flowWriteChunks (f : flowControl) (data : List Nat) : flowControl × List Frame :=
  if h : data.length > MAX_DATA_SIZE then
    let step := f.Write (data.take MAX_DATA_SIZE)
    let rest := flowWriteChunks step.1 (data.drop MAX_DATA_SIZE)
    (rest.1, step.2 ++ rest.2)
  else f.Write data
termination_by data.length
decreasing_by
  simp only [List.length_drop]
  have : 0 < MAX_DATA_SIZE := by decide
  omega

/-- `ResponseStream.Write(inputData)`: the response body writer.  Fails
on a unidirectional or closed stream; otherwise performs the implicit
`WriteHeader(200)`, flushes header deltas, and chunks the data through
the flow controller.  Returns the stream, the emitted frames, the byte
count reported to the handler and the error (if any). -/
def ResponseStream.Write (s : ResponseStream) (inputData : List Nat) :
    ResponseStream × List Frame × Nat × Option String :=
  if s.unidirectional then
    (s, [], 0, some "Error: Stream is unidirectional.")
  else if s.closed || s.state.ClosedHere then
    (s, [], 0, some "Error: Stream already closed.")
  else
    let step1 := if !s.wroteHeader then s.WriteHeader 200 else (s, [])
    let step2 := step1.1.writeHeader
    let step3 := flowWriteChunks step2.1.flow inputData
    ({ step2.1 with flow := step3.1 },
     step1.2 ++ step2.2 ++ step3.2, inputData.length, none)

/-- `ResponseStream.ReceiveFrame(frame)`: inbound dispatch.  DATA feeds
the request body and recv accounting (FIN closes `ready` and the remote
side); SYN_REPLY and HEADERS merge headers; WINDOW_UPDATE updates the
send window, replying RST_STREAM(FLOW_CONTROL_ERROR) on overflow; a nil
or unknown frame is an error. -/
def ResponseStream.ReceiveFrame (s : ResponseStream) (frame : Option Frame) :
    ResponseStream × List Frame × Option String :=
  match frame with
  | none => (s, [], some "Error: Nil frame received.")
  | some (Frame.DATA _ flags payload) =>
      let s1 := { s with requestBody := s.requestBody ++ payload }
      let rcv := s1.flow.Receive payload
      let s2 := { s1 with flow := rcv.1 }
      let s3 := if finFlag flags then
                  { s2 with ready := true, state := s2.state.CloseThere }
                else s2
      (s3, rcv.2, none)
  | some (Frame.SYN_REPLY _ flags hdr) =>
      let s1 := { s with header := updateHeader s.header hdr }
      let s2 := if finFlag flags then
                  { s1 with ready := true, state := s1.state.CloseThere }
                else s1
      (s2, [], none)
  | some (Frame.HEADERS _ hdr) =>
      ({ s with header := updateHeader s.header hdr }, [], none)
  | some (Frame.WINDOW_UPDATE _ delta) =>
      match s.flow.UpdateWindow delta with
      | Except.error e =>
          (s, [Frame.RST_STREAM s.streamID RST_STREAM_FLOW_CONTROL_ERROR], some e)
      | Except.ok fr =>
          ({ s with flow := fr.1 }, fr.2, none)
  | some (Frame.RST_STREAM _ _) =>
      (s, [], some "Error: Received unknown frame.")

/-- `ResponseStream.shutdown()`: the one-shot cleanup — flush pending
headers, close the state, close the flow controller, drop the request
body and the handler/output/stop references. -/
def ResponseStream.shutdown (s : ResponseStream) : ResponseStream × List Frame :=
  let step := s.writeHeader
  ({ step.1 with state := step.1.state.Close
                 flow := step.1.flow.Close
                 requestBody := []
                 handler := none
                 header := [] }, step.2)

/-- `ResponseStream.Close()`: runs `shutdown` under the `sync.Once`
latch and always returns nil. -/
def ResponseStream.Close (s : ResponseStream) :
    ResponseStream × List Frame × Option String :=
  if s.shutdownDone then (s, [], none)
  else
    let step := s.shutdown
    ({ step.1 with shutdownDone := true }, step.2, none)

/-- The flush step at the top of `Run`'s finalisation: if the flow
controller is paused and the remote side is still open, `Flush()` ships
the remaining buffered bytes. -/
def flushPart (s : ResponseStream) : List Frame :=
  if s.flow.Paused && s.state.OpenThere then (s.flow.Flush).2 else []

/-- The tail of `ResponseStream.Run` after the handler invocation
returns: flush buffered data if possible, emit the trailing frame
(SYN_REPLY with FIN if no header was written, an empty FIN DATA frame if
one was, nothing if the local side is closed or the stream is
unidirectional) and apply `CloseHere`. -/
def ResponseStream.runFinish (s : ResponseStream) : ResponseStream × List Frame :=
  let fl := if s.flow.Paused && s.state.OpenThere then s.flow.Flush else (s.flow, [])
  let s1 := { s with flow := fl.1 }
  let step :=
    if !s1.unidirectional then
      if s1.state.OpenHere && !s1.wroteHeader then
        let hdr := setH (setH s1.header ":status" "200") ":version" "HTTP/1.1"
        (({ s1 with header := [] } : ResponseStream),
         [Frame.SYN_REPLY s1.streamID FLAG_FIN hdr])
      else if s1.state.OpenHere then
        (s1, [Frame.DATA s1.streamID FLAG_FIN []])
      else (s1, [])
    else (s1, [])
  ({ step.1 with state := step.1.state.CloseHere }, fl.2 ++ step.2)

/-- Modelled from the spec: the trailing-frame table of `Run` —
no frame when unidirectional or already half-closed locally, a
SYN_REPLY with FIN and a 200 status when no header was written, an
empty FIN DATA frame otherwise. -/
def trailingSpec (s : ResponseStream) : List Frame :=
  if s.unidirectional then []
  else if s.state.OpenHere && !s.wroteHeader then
    [Frame.SYN_REPLY s.streamID FLAG_FIN
      (setH (setH s.header ":status" "200") ":version" "HTTP/1.1")]
  else if s.state.OpenHere then [Frame.DATA s.streamID FLAG_FIN []]
  else []

/-- One operation on a live stream: a handler `Write`, a handler
`WriteHeader`, or the arrival of an inbound frame. -/
inductive Op where
  | writeOp (data : List Nat)
  | writeHeaderOp (code : Int)
  | receiveOp (frame : Option Frame)

/-- Whether the operation is one the HTTP handler performs. -/
def Op.isHandlerOp : Op → Bool
  | .writeOp _ => true
  | .writeHeaderOp _ => true
  | .receiveOp _ => false

/-- Apply one operation, returning the new stream and the frames it
submitted to the output sink. -/
def execOp (s : ResponseStream) (op : Op) : ResponseStream × List Frame :=
  match op with
  | .writeOp data =>
      let r := s.Write data
      (r.1, r.2.1)
  | .writeHeaderOp code => s.WriteHeader code
  | .receiveOp f =>
      let r := s.ReceiveFrame f
      (r.1, r.2.1)

/-- Apply a sequence of operations, accumulating the emitted frames in
submission order. -/
def execOps (s : ResponseStream) (ops : List Op) : ResponseStream × List Frame :=
  match ops with
  | [] => (s, [])
  | op :: rest =>
      let r1 := execOp s op
      let r2 := execOps r1.1 rest
      (r2.1, r1.2 ++ r2.2)

/-- `ResponseStream.Run`, with the handler invocation and the
concurrently arriving inbound frames abstracted as the operation list
`ops`: execute the operations, then finalise the stream. -/
def Run (s : ResponseStream) (ops : List Op) : ResponseStream × List Frame :=
  let r1 := execOps s ops
  let r2 := r1.1.runFinish
  (r2.1, r1.2 ++ r2.2)

/-- All frames a stream emits over a completed lifetime: construction
from the SYN_STREAM, the operations of the handler and the peer, and
`Run`'s finalisation. -/
def lifetimeFrames (iw : Int) (frame : SynStreamFrame) (h : Option Handler)
    (ops : List Op) : List Frame :=
  (Run (newResponseStream iw frame h) ops).2

/-- Whether a frame is a SYN_REPLY. -/
def isSynReplyF : Frame → Bool
  | .SYN_REPLY _ _ _ => true
  | _ => false

/-- Whether a frame carries the FIN flag. -/
def hasFinF : Frame → Bool
  | .SYN_REPLY _ fl _ => finFlag fl
  | .DATA _ fl _ => finFlag fl
  | .HEADERS _ _ => false
  | .RST_STREAM _ _ => false
  | .WINDOW_UPDATE _ _ => false

/-- Number of FIN-carrying frames in a list. -/
def finCount (l : List Frame) : Nat := (l.filter hasFinF).length

/-- Whether a frame is a control reply the engine emits on the receive
path (RST_STREAM on error, WINDOW_UPDATE for recv accounting). -/
def isCtlReply : Frame → Bool
  | .RST_STREAM _ _ => true
  | .WINDOW_UPDATE _ _ => true
  | _ => false

/-- The literal reading of the spec sentence: once a FIN-carrying frame
is emitted, no frame at all follows it. -/
def finLastStrict : List Frame → Bool
  | [] => true
  | g :: rest => if hasFinF g then rest.isEmpty else finLastStrict rest

/-- The FIN-carrying frame is last among the response frames: only
receive-path control replies may follow it. -/
def finLastExceptCtl : List Frame → Bool
  | [] => true
  | g :: rest => if hasFinF g then rest.all isCtlReply else finLastExceptCtl rest

/-- `N` successive calls of `Close()`, accumulating emitted frames. -/
def closeIterAux : Nat → ResponseStream → ResponseStream × List Frame
  | 0, s => (s, [])
  | n + 1, s =>
      let step := s.Close
      let rest := closeIterAux n step.1
      (rest.1, step.2.1 ++ rest.2)

/-- Modelled from the spec: `common.StreamID.Valid()` — a stream ID is
valid iff its high bit is clear (it fits in 31 bits). -/
def streamIDValid (id : Nat) : Bool := id < 2147483648

/-- Modelled from the spec: `common.BytesToUint24`, big-endian. -/
def BytesToUint24 (a b c : Nat) : Nat := a * 65536 + b * 256 + c

/-- Modelled from the spec: `common.BytesToUint32`, big-endian. -/
def BytesToUint32 (a b c d : Nat) : Nat := a * 16777216 + b * 65536 + c * 256 + d

/-- Modelled from the spec: `StreamID.B1()`, the most significant byte. -/
def byte1of4 (n : Nat) : Nat := n / 16777216 % 256

/-- Modelled from the spec: `StreamID.B2()`. -/
def byte2of4 (n : Nat) : Nat := n / 65536 % 256

/-- Modelled from the spec: `StreamID.B3()`. -/
def byte3of4 (n : Nat) : Nat := n / 256 % 256

/-- Modelled from the spec: `StreamID.B4()`, the least significant byte. -/
def byte4of4 (n : Nat) : Nat := n % 256

/-- `SynStreamFrame.WriteTo`: requires the header block already
compressed and valid stream IDs, then emits the 18-byte prefix followed
by the raw header block.  Byte-typed Go fields are embedded as naturals
and reduced mod 256 where the source stores them into single bytes. -/
def SynStreamFrame.WriteTo (frame : SynStreamFrame) : Except String (List Nat) :=
  match frame.rawHeader with
  | none => Except.error "Error: Headers not written."
  | some header =>
    if !streamIDValid frame.StreamID then Except.error "Error: Stream ID is too large."
    else if frame.StreamID == 0 then Except.error "Error: Stream ID is zero."
    else if !streamIDValid frame.AssocStreamID then Except.error "Error: Stream ID is too large."
    else
      let length := 10 + header.length
      Except.ok ([128, 3, 0, 1, frame.Flags % 256,
        length / 65536 % 256, length / 256 % 256, length % 256,
        byte1of4 frame.StreamID, byte2of4 frame.StreamID,
        byte3of4 frame.StreamID, byte4of4 frame.StreamID,
        byte1of4 frame.AssocStreamID, byte2of4 frame.AssocStreamID,
        byte3of4 frame.AssocStreamID, byte4of4 frame.AssocStreamID,
        frame.Priority * 32 % 256,
        frame.Slot % 256] ++ header)

/-- `SynStreamFrame.ReadFrom`: reads the 18-byte prefix, validates the
control header (0x8003, type 1, flags restricted to FIN and
UNIDIRECTIONAL — modelled from the spec for
`controlFrameCommonProcessing`), validates the length field and the
stream IDs, reads the raw header block, and returns the frame together
with the number of bytes consumed. -/
def SynStreamFrame.ReadFrom (input : List Nat) : Except String (SynStreamFrame × Nat) :=
  match input with
  | b0 :: b1 :: b2 :: b3 :: b4 :: b5 :: b6 :: b7 :: c0 :: c1 :: c2 :: c3 ::
      d0 :: d1 :: d2 :: d3 :: e0 :: e1 :: rest =>
    if !(b0 == 128 && b1 == 3 && b2 == 0 && b3 == 1) then
      Except.error "Error: Mismatched frame header."
    else if b4 ≥ 4 then
      Except.error "Error: Invalid frame flags."
    else
      let length := BytesToUint24 b5 b6 b7
      if length < 10 then Except.error "Error: Incorrect data length."
      else if length > MAX_FRAME_SIZE - 18 then Except.error "Error: Frame too large."
      else if rest.length < length - 10 then Except.error "Error: Read failure."
      else
        let sid := BytesToUint32 c0 c1 c2 c3
        let assoc := BytesToUint32 d0 d1 d2 d3
        if !streamIDValid sid then Except.error "Error: Stream ID is too large."
        else if sid == 0 then Except.error "Error: Stream ID is zero."
        else if !streamIDValid assoc then Except.error "Error: Stream ID is too large."
        else
          Except.ok ({ Flags := b4, StreamID := sid, AssocStreamID := assoc,
                       Priority := e0 / 32, Slot := e1, Header := [],
                       rawHeader := some (rest.take (length - 10)) }, length + 8)
  | _ => Except.error "Error: Read failure."

/-- Field-wise comparison used by the round-trip property: the raw
header block is compared verbatim (equal raw blocks decompress to equal
header maps). -/
def roundTripFields (f g : SynStreamFrame) : Bool :=
  g.Flags == f.Flags && g.StreamID == f.StreamID &&
  g.AssocStreamID == f.AssocStreamID && g.Priority == f.Priority &&
  g.Slot == f.Slot && g.rawHeader == f.rawHeader

/-- The round-trip property as the spec states it: encoding succeeds,
decoding the produced bytes succeeds, and the decoded frame agrees with
the original on flags, stream IDs, priority, slot and raw header. -/
def roundTripStated (f : SynStreamFrame) : Bool :=
  match f.WriteTo with
  | Except.error _ => false
  | Except.ok out =>
    match SynStreamFrame.ReadFrom out with
    | Except.error _ => false
    | Except.ok gp => roundTripFields f gp.1

/-- Invariant for the header-first discipline: once `wroteHeader` is
set a frame has been emitted, and any first emitted frame is a
SYN_REPLY. -/
def headInv (s : ResponseStream) (fr : List Frame) : Prop :=
  (s.wroteHeader = true → fr ≠ []) ∧ ∀ g tl, fr = g :: tl → isSynReplyF g = true

/-- Invariant for the FIN discipline: a stream that has not written its
header has an empty, unpaused flow buffer; a locally closed stream wrote
its header (via the no-body path) with an empty, unpaused buffer; a
unidirectional stream never writes a header or closes locally; and the
emitted frames carry a FIN exactly when the local side has closed, with
only control replies after the FIN. -/
def finInv (s : ResponseStream) (fr : List Frame) : Prop :=
  (s.wroteHeader = false → s.flow.pending = [] ∧ s.flow.paused = false) ∧
  (s.state.localClosed = true →
    s.wroteHeader = true ∧ s.flow.pending = [] ∧ s.flow.paused = false) ∧
  (s.unidirectional = true → s.wroteHeader = false ∧ s.state.localClosed = false) ∧
  (if s.state.localClosed then
     ∃ a g b, fr = a ++ g :: b ∧ hasFinF g = true ∧ finCount a = 0 ∧
       b.all isCtlReply = true
   else finCount fr = 0)

/-! ## Helper lemmas -/

/-- Go truncated integer division: `code/100 == 1` holds on the 1xx range. -/
lemma tdiv100_one {code : Int} (h1 : 100 ≤ code) (h2 : code ≤ 199) :
    Int.tdiv code 100 = 1 := by
  rw [Int.tdiv_eq_ediv (by omega) (by omega)]
  omega

/-- A stream on which `Close` has already run is left untouched by `Close`. -/
lemma close_done (s : ResponseStream) (h : s.shutdownDone = true) :
    s.Close = (s, [], none) := by
  unfold ResponseStream.Close
  simp [h]

/-- After any `Close` call the shutdown latch is set. -/
lemma close_sets_done (s : ResponseStream) : (s.Close).1.shutdownDone = true := by
  unfold ResponseStream.Close
  by_cases h : s.shutdownDone <;> simp [h]

/-- Iterated `Close` on an already shut-down stream does nothing. -/
lemma closeIter_of_done (n : Nat) (s : ResponseStream) (h : s.shutdownDone = true) :
    closeIterAux n s = (s, []) := by
  induction n with
  | zero => rfl
  | succ m ih =>
    unfold closeIterAux
    rw [close_done s h]
    simp [ih]

/-- `WriteHeader` either emits nothing and leaves `wroteHeader` alone,
or emits exactly one SYN_REPLY and sets `wroteHeader`. -/
lemma writeHeader_frames (s : ResponseStream) (code : Int) :
    ((s.WriteHeader code).2 = [] ∧ (s.WriteHeader code).1.wroteHeader = s.wroteHeader) ∨
    ∃ fl hdr, (s.WriteHeader code).2 = [Frame.SYN_REPLY s.streamID fl hdr] ∧
      (s.WriteHeader code).1.wroteHeader = true := by
  unfold ResponseStream.WriteHeader
  by_cases h1 : s.unidirectional
  · left
    simp [h1]
  · by_cases h2 : s.wroteHeader
    · left
      simp [h1, h2]
    · right
      simp only [h1, h2]
      exact ⟨_, _, rfl, rfl⟩

/-- The header-flush helper does not touch `wroteHeader`. -/
lemma writeHeaderHelper_wrote (s : ResponseStream) :
    (s.writeHeader).1.wroteHeader = s.wroteHeader := by
  unfold ResponseStream.writeHeader
  split <;> rfl

/-- `Write` either fails without frames, or succeeds: on a stream that
had not written its header the emitted frames start with a SYN_REPLY
and `wroteHeader` is set; on one that had, `wroteHeader` stays set. -/
lemma write_frames (s : ResponseStream) (data : List Nat) :
    ((s.Write data).2.1 = [] ∧ (s.Write data).1.wroteHeader = s.wroteHeader) ∨
    (s.wroteHeader = false ∧ ∃ fl hdr tl,
      (s.Write data).2.1 = Frame.SYN_REPLY s.streamID fl hdr :: tl ∧
      (s.Write data).1.wroteHeader = true) ∨
    (s.wroteHeader = true ∧ (s.Write data).1.wroteHeader = true) := by
  by_cases h1 : s.unidirectional
  · left
    unfold ResponseStream.Write
    simp [h1]
  · by_cases h2 : s.closed || s.state.ClosedHere
    · left
      unfold ResponseStream.Write
      simp only [h1, h2]
      simp
    · by_cases h3 : s.wroteHeader
      · right; right
        refine ⟨h3, ?_⟩
        unfold ResponseStream.Write
        simp only [h1, h2, h3]
        simp [writeHeaderHelper_wrote, h3]
      · right; left
        refine ⟨by simpa using h3, ?_⟩
        unfold ResponseStream.Write
        simp only [h1, h2, h3]
        unfold ResponseStream.WriteHeader
        simp only [h1, h3]
        exact ⟨_, _, _, rfl, rfl⟩

/-- One handler operation preserves the header-first invariant. -/
lemma headInv_step (s : ResponseStream) (fr : List Frame) (op : Op)
    (hop : op.isHandlerOp = true) (hinv : headInv s fr) :
    headInv (execOp s op).1 (fr ++ (execOp s op).2) := by
  cases op with
  | receiveOp f => simp [Op.isHandlerOp] at hop
  | writeHeaderOp code =>
    rcases writeHeader_frames s code with ⟨h1, h2⟩ | ⟨fl, hdr, h1, h2⟩
    · refine ⟨?_, ?_⟩
      · intro hw
        simp only [execOp] at hw ⊢
        rw [h1, List.append_nil]
        exact hinv.1 (h2 ▸ hw)
      · intro g tl hg
        simp only [execOp, h1, List.append_nil] at hg
        exact hinv.2 g tl hg
    · refine ⟨?_, ?_⟩
      · intro _
        simp only [execOp, h1]
        simp
      · intro g tl hg
        simp only [execOp, h1] at hg
        cases hfr : fr with
        | nil =>
          subst hfr
          rw [List.nil_append] at hg
          injection hg with hga hgb
          rw [← hga]
          rfl
        | cons g0 fr0 =>
          subst hfr
          rw [List.cons_append] at hg
          injection hg with hga hgb
          rw [← hga]
          exact hinv.2 g0 fr0 rfl
  | writeOp data =>
    rcases write_frames s data with ⟨h1, h2⟩ | ⟨hw, fl, hdr, tl, h1, h2⟩ | ⟨hw, h2⟩
    · refine ⟨?_, ?_⟩
      · intro hweq
        simp only [execOp] at hweq ⊢
        rw [h1, List.append_nil]
        exact hinv.1 (h2 ▸ hweq)
      · intro g tl hg
        simp only [execOp, h1, List.append_nil] at hg
        exact hinv.2 g tl hg
    · refine ⟨?_, ?_⟩
      · intro _
        simp only [execOp, h1]
        simp
      · intro g tl2 hg
        simp only [execOp, h1] at hg
        cases hfr : fr with
        | nil =>
          subst hfr
          rw [List.nil_append] at hg
          injection hg with hga hgb
          rw [← hga]
          rfl
        | cons g0 fr0 =>
          subst hfr
          rw [List.cons_append] at hg
          injection hg with hga hgb
          rw [← hga]
          exact hinv.2 g0 fr0 rfl
    · have hne : fr ≠ [] := hinv.1 hw
      obtain ⟨g0, fr0, rfl⟩ := List.exists_cons_of_ne_nil hne
      refine ⟨?_, ?_⟩
      · intro _
        simp
      · intro g tl2 hg
        rw [List.cons_append] at hg
        injection hg with hga hgb
        rw [← hga]
        exact hinv.2 g0 fr0 rfl

/-- The header-first invariant is preserved by any sequence of handler
operations. -/
lemma headInv_execOps (s : ResponseStream) (fr : List Frame) (ops : List Op)
    (hops : ∀ op ∈ ops, op.isHandlerOp = true) (hinv : headInv s fr) :
    headInv (execOps s ops).1 (fr ++ (execOps s ops).2) := by
  induction ops generalizing s fr with
  | nil => simpa [execOps] using hinv
  | cons op rest ih =>
    have h1 := headInv_step s fr op (hops op (by simp)) hinv
    have h2 := ih (execOp s op).1 (fr ++ (execOp s op).2)
      (fun o ho => hops o (by simp [ho])) h1
    simpa [execOps, List.append_assoc] using h2

/-- FIN counting distributes over appending. -/
lemma finCount_append (a b : List Frame) :
    finCount (a ++ b) = finCount a + finCount b := by
  simp [finCount, List.filter_append]

/-- FIN counting on a cons. -/
lemma finCount_cons (x : Frame) (xs : List Frame) :
    finCount (x :: xs) = (if hasFinF x then 1 else 0) + finCount xs := by
  by_cases h : hasFinF x <;> simp [finCount, List.filter_cons, h] <;> omega

/-- A list of FIN-free frames has FIN count zero. -/
lemma finCount_eq_zero_of_noFin (l : List Frame)
    (h : l.all (fun g => !hasFinF g) = true) : finCount l = 0 := by
  induction l with
  | nil => rfl
  | cons x xs ih =>
    simp only [List.all_cons, Bool.and_eq_true, Bool.not_eq_true'] at h
    rw [finCount_cons, h.1, ih h.2]
    simp

/-- Control replies never carry FIN. -/
lemma ctl_noFin (g : Frame) (h : isCtlReply g = true) : hasFinF g = false := by
  cases g <;> simp_all [isCtlReply, hasFinF]

/-- A list of control replies has FIN count zero. -/
lemma finCount_eq_zero_of_ctl (l : List Frame)
    (h : l.all isCtlReply = true) : finCount l = 0 := by
  refine finCount_eq_zero_of_noFin l ?_
  simp only [List.all_eq_true] at h ⊢
  intro g hg
  simp [ctl_noFin g (h g hg)]

/-- A FIN-free list trivially satisfies the FIN-last discipline. -/
lemma finLastExceptCtl_of_none (l : List Frame) (h : finCount l = 0) :
    finLastExceptCtl l = true := by
  induction l with
  | nil => rfl
  | cons x xs ih =>
    rw [finCount_cons] at h
    have hx : hasFinF x = false := by
      by_cases hb : hasFinF x
      · rw [hb] at h
        simp at h
      · simpa using hb
    have hxs : finCount xs = 0 := by
      rw [hx] at h
      simpa using h
    simp [finLastExceptCtl, hx, ih hxs]

/-- A FIN-free prefix, a FIN frame, then control replies satisfies the
FIN-last discipline. -/
lemma finLastExceptCtl_shape (a : List Frame) (g : Frame) (b : List Frame)
    (ha : finCount a = 0) (hg : hasFinF g = true) (hb : b.all isCtlReply = true) :
    finLastExceptCtl (a ++ g :: b) = true := by
  induction a with
  | nil => simp [finLastExceptCtl, hg, hb]
  | cons x xs ih =>
    rw [finCount_cons] at ha
    have hx : hasFinF x = false := by
      by_cases hbx : hasFinF x
      · rw [hbx] at ha
        simp at ha
      · simpa using hbx
    have hxs : finCount xs = 0 := by
      rw [hx] at ha
      simpa using ha
    simp [finLastExceptCtl, hx, ih hxs]

/-- FIN count of the canonical shape is one. -/
lemma finCount_shape (a : List Frame) (g : Frame) (b : List Frame)
    (ha : finCount a = 0) (hg : hasFinF g = true) (hb : b.all isCtlReply = true) :
    finCount (a ++ g :: b) = 1 := by
  rw [finCount_append, finCount_cons, ha, hg, finCount_eq_zero_of_ctl b hb]
  simp

/-- A failing `Write` leaves the stream untouched and emits nothing. -/
lemma write_fail_eq (s : ResponseStream) (data : List Nat)
    (h : s.unidirectional = true ∨ (s.closed || s.state.ClosedHere) = true) :
    (s.Write data).1 = s ∧ (s.Write data).2.1 = [] := by
  unfold ResponseStream.Write
  rcases h with h | h
  · simp [h]
  · by_cases h1 : s.unidirectional
    · simp [h1]
    · simp [h1, h]

/-- A single flow-controller write emits only FIN-free frames. -/
lemma flow_write_noFin (f : flowControl) (data : List Nat) :
    ((f.Write data).2).all (fun g => !hasFinF g) = true := by
  unfold flowControl.Write
  split
  · rfl
  · split
    · rfl
    · simp only []
      split
      · rfl
      · simp [hasFinF, finFlag]

/-- Fuelled form of `flowWriteChunks_noFin`. -/
lemma flowWriteChunks_noFin_aux :
    ∀ (n : Nat) (f : flowControl) (data : List Nat), data.length ≤ n →
      ((flowWriteChunks f data).2).all (fun g => !hasFinF g) = true := by
  intro n
  induction n with
  | zero =>
    intro f data hle
    unfold flowWriteChunks
    rw [dif_neg (by omega)]
    exact flow_write_noFin _ _
  | succ m ih =>
    intro f data hle
    unfold flowWriteChunks
    split
    · rename_i hgt
      simp only [List.all_append, Bool.and_eq_true]
      refine ⟨flow_write_noFin _ _, ih _ _ ?_⟩
      simp only [List.length_drop]
      have hM : MAX_DATA_SIZE = 4096 := rfl
      omega
    · exact flow_write_noFin _ _

/-- The chunking loop emits only FIN-free frames. -/
lemma flowWriteChunks_noFin (f : flowControl) (data : List Nat) :
    ((flowWriteChunks f data).2).all (fun g => !hasFinF g) = true :=
  flowWriteChunks_noFin_aux data.length f data le_rfl

/-- The header-flush helper leaves the record alone except for the
header map, and emits only a HEADERS frame. -/
lemma writeHeaderHelper_char (s : ResponseStream) :
    (s.writeHeader).1.state = s.state ∧
    (s.writeHeader).1.wroteHeader = s.wroteHeader ∧
    (s.writeHeader).1.unidirectional = s.unidirectional ∧
    (s.writeHeader).1.flow = s.flow ∧
    ((s.writeHeader).2).all (fun g => !hasFinF g) = true := by
  unfold ResponseStream.writeHeader
  split
  · exact ⟨rfl, rfl, rfl, rfl, rfl⟩
  · exact ⟨rfl, rfl, rfl, rfl, by simp [hasFinF]⟩

/-- A fresh `WriteHeader` (bidirectional, header not yet written): sets
`wroteHeader`, leaves the flow controller alone, closes the local side
with a FIN SYN_REPLY exactly on the no-body statuses. -/
lemma writeHeader_fresh_char (s : ResponseStream) (code : Int)
    (h1 : s.unidirectional = false) (h2 : s.wroteHeader = false) :
    (s.WriteHeader code).1.wroteHeader = true ∧
    (s.WriteHeader code).1.unidirectional = false ∧
    (s.WriteHeader code).1.flow = s.flow ∧
    ((code = 204 ∨ code = 304 ∨ Int.tdiv code 100 = 1) →
      (s.WriteHeader code).1.state.localClosed = true ∧
      (s.WriteHeader code).2 = [Frame.SYN_REPLY s.streamID FLAG_FIN
        (setH (setH s.header ":status" (toString code)) ":version" "HTTP/1.1")]) ∧
    (¬(code = 204 ∨ code = 304 ∨ Int.tdiv code 100 = 1) →
      (s.WriteHeader code).1.state = s.state ∧
      (s.WriteHeader code).2 = [Frame.SYN_REPLY s.streamID 0
        (setH (setH s.header ":status" (toString code)) ":version" "HTTP/1.1")]) := by
  unfold ResponseStream.WriteHeader
  by_cases hnb : code = 204 ∨ code = 304 ∨ Int.tdiv code 100 = 1 <;>
    simp [h1, h2, hnb, StreamState.CloseHere]

/-- Decomposition of a successful `Write` into its three steps. -/
lemma write_success_decomp (s : ResponseStream) (data : List Nat)
    (h1 : s.unidirectional = false) (h2 : (s.closed || s.state.ClosedHere) = false) :
    s.Write data =
      ({ ((if !s.wroteHeader then s.WriteHeader 200 else (s, [])).1.writeHeader).1 with
          flow := (flowWriteChunks
            ((if !s.wroteHeader then s.WriteHeader 200 else (s, [])).1.writeHeader).1.flow
            data).1 },
       (if !s.wroteHeader then s.WriteHeader 200 else (s, [])).2 ++
         ((if !s.wroteHeader then s.WriteHeader 200 else (s, [])).1.writeHeader).2 ++
         (flowWriteChunks
           ((if !s.wroteHeader then s.WriteHeader 200 else (s, [])).1.writeHeader).1.flow
           data).2,
       data.length, none) := by
  unfold ResponseStream.Write
  simp [h1, h2]

/-- A successful `Write` (bidirectional, not closed): the local side
stays open, `wroteHeader` ends set, and every emitted frame is FIN-free. -/
lemma write_success_char (s : ResponseStream) (data : List Nat)
    (h1 : s.unidirectional = false) (h2 : (s.closed || s.state.ClosedHere) = false) :
    (s.Write data).1.state.localClosed = s.state.localClosed ∧
    (s.Write data).1.wroteHeader = true ∧
    (s.Write data).1.unidirectional = false ∧
    ((s.Write data).2.1).all (fun g => !hasFinF g) = true := by
  have h200 : ¬((200 : Int) = 204 ∨ (200 : Int) = 304 ∨ Int.tdiv 200 100 = 1) := by decide
  by_cases hw : s.wroteHeader
  · have hh := writeHeaderHelper_char s
    rw [write_success_decomp s data h1 h2]
    simp only [hw, Bool.not_true, Bool.false_eq_true, if_false]
    refine ⟨?_, ?_, ?_, ?_⟩
    · simp [hh.1]
    · simp [hh.2.1, hw]
    · simp [hh.2.2.1, h1]
    · simp only [List.nil_append, List.all_append, Bool.and_eq_true]
      exact ⟨hh.2.2.2.2, flowWriteChunks_noFin _ _⟩
  · have hwf : s.wroteHeader = false := by simpa using hw
    have hc := writeHeader_fresh_char s 200 h1 hwf
    have hst := (hc.2.2.2.2 h200).1
    have hfr := (hc.2.2.2.2 h200).2
    have hh := writeHeaderHelper_char (s.WriteHeader 200).1
    rw [write_success_decomp s data h1 h2]
    simp only [hwf, Bool.not_false, if_true]
    refine ⟨?_, ?_, ?_, ?_⟩
    · simp [hh.1, hst]
    · simp [hh.2.1, hc.1]
    · simp [hh.2.2.1, hc.2.1]
    · simp only [List.all_append, Bool.and_eq_true]
      refine ⟨⟨?_, hh.2.2.2.2⟩, flowWriteChunks_noFin _ _⟩
      rw [hfr]
      rfl

/-- A successful `UpdateWindow` emits only FIN-free DATA frames. -/
lemma updateWindow_frames_noFin (f : flowControl) (delta : Nat)
    (pr : flowControl × List Frame) (h : f.UpdateWindow delta = Except.ok pr) :
    pr.2.all (fun g => !hasFinF g) = true := by
  unfold flowControl.UpdateWindow at h
  split at h
  · cases h
  · dsimp only at h
    split at h
    · injection h with h
      subst h
      dsimp only
      split
      · rfl
      · simp [hasFinF, finFlag]
    · injection h with h
      subst h
      rfl

/-- On an unpaused controller, `UpdateWindow` succeeds without frames
and leaves the buffer and pause flag alone. -/
lemma updateWindow_ok_flow (f : flowControl) (delta : Nat)
    (pr : flowControl × List Frame) (hp : f.paused = false)
    (h : f.UpdateWindow delta = Except.ok pr) :
    pr.1.paused = false ∧ pr.1.pending = f.pending ∧ pr.2 = [] := by
  unfold flowControl.UpdateWindow at h
  split at h
  · cases h
  · dsimp only at h
    rw [if_neg (by simp [hp])] at h
    injection h with h
    subst h
    exact ⟨hp, rfl, rfl⟩

/-- `Receive` only adjusts the receive window: the buffer and pause
flag are untouched, and the only possible frame is a WINDOW_UPDATE. -/
lemma flow_receive_char (f : flowControl) (data : List Nat) :
    (f.Receive data).1.paused = f.paused ∧
    (f.Receive data).1.pending = f.pending ∧
    ((f.Receive data).2).all isCtlReply = true ∧
    ((f.Receive data).2).all (fun g => !hasFinF g) = true := by
  unfold flowControl.Receive
  by_cases h : f.initialWindow / 2 ≤ f.initialWindow - (f.recvWindow - (data.length : Int)) <;>
    simp [h, isCtlReply, hasFinF]

/-- `ReceiveFrame` never changes the local half-close status, the
`wroteHeader` flag or the direction, and emits only FIN-free frames. -/
lemma receive_char (s : ResponseStream) (f : Option Frame) :
    (s.ReceiveFrame f).1.state.localClosed = s.state.localClosed ∧
    (s.ReceiveFrame f).1.wroteHeader = s.wroteHeader ∧
    (s.ReceiveFrame f).1.unidirectional = s.unidirectional ∧
    ((s.ReceiveFrame f).2.1).all (fun g => !hasFinF g) = true := by
  cases f with
  | none => exact ⟨rfl, rfl, rfl, rfl⟩
  | some fr =>
    cases fr with
    | DATA sid flags payload =>
      have hfr := flow_receive_char s.flow payload
      simp only [ResponseStream.ReceiveFrame]
      by_cases hf : finFlag flags <;>
        simp [hf, StreamState.CloseThere, hfr.2.2.2]
    | SYN_REPLY sid flags hdr =>
      simp only [ResponseStream.ReceiveFrame]
      by_cases hf : finFlag flags <;> simp [hf, StreamState.CloseThere]
    | HEADERS sid hdr => exact ⟨rfl, rfl, rfl, rfl⟩
    | RST_STREAM sid status => exact ⟨rfl, rfl, rfl, rfl⟩
    | WINDOW_UPDATE sid delta =>
      simp only [ResponseStream.ReceiveFrame]
      rcases hE : s.flow.UpdateWindow delta with e | pr
      · simp [hE, hasFinF]
      · simp [hE, updateWindow_frames_noFin s.flow delta pr hE]

/-- On a stream whose flow buffer is empty and unpaused, `ReceiveFrame`
keeps it so and emits only control replies. -/
lemma receive_flow_char (s : ResponseStream) (f : Option Frame)
    (hp : s.flow.paused = false) (hpd : s.flow.pending = []) :
    (s.ReceiveFrame f).1.flow.paused = false ∧
    (s.ReceiveFrame f).1.flow.pending = [] ∧
    ((s.ReceiveFrame f).2.1).all isCtlReply = true := by
  cases f with
  | none => exact ⟨hp, hpd, rfl⟩
  | some fr =>
    cases fr with
    | DATA sid flags payload =>
      have hfr := flow_receive_char s.flow payload
      simp only [ResponseStream.ReceiveFrame]
      by_cases hf : finFlag flags <;>
        simp [hf, hfr.1, hfr.2.1, hfr.2.2.1, hp, hpd]
    | SYN_REPLY sid flags hdr =>
      simp only [ResponseStream.ReceiveFrame]
      by_cases hf : finFlag flags <;> simp [hf, hp, hpd]
    | HEADERS sid hdr => exact ⟨hp, hpd, rfl⟩
    | RST_STREAM sid status => exact ⟨hp, hpd, rfl⟩
    | WINDOW_UPDATE sid delta =>
      simp only [ResponseStream.ReceiveFrame]
      rcases hE : s.flow.UpdateWindow delta with e | pr
      · simp [hE, hp, hpd, isCtlReply]
      · obtain ⟨ha, hb, hc⟩ := updateWindow_ok_flow s.flow delta pr hp hE
        simp [hE, ha, hb, hc, hpd]

/-- `WriteHeader` is a no-op on a unidirectional stream or after a
first call. -/
lemma writeHeader_noop (s : ResponseStream) (code : Int)
    (h : s.unidirectional = true ∨ s.wroteHeader = true) :
    s.WriteHeader code = (s, []) := by
  unfold ResponseStream.WriteHeader
  rcases h with h | h
  · simp [h]
  · by_cases h1 : s.unidirectional <;> simp [h1, h]

/-- One operation preserves the FIN discipline invariant. -/
lemma finInv_step (s : ResponseStream) (fr : List Frame) (op : Op)
    (hinv : finInv s fr) :
    finInv (execOp s op).1 (fr ++ (execOp s op).2) := by
  obtain ⟨inv2, inv3, inv4, inv5⟩ := hinv
  cases op with
  | writeOp data =>
    by_cases hfail : s.unidirectional = true ∨ (s.closed || s.state.ClosedHere) = true
    · obtain ⟨he, hf⟩ := write_fail_eq s data hfail
      simp only [execOp, he, hf, List.append_nil]
      exact ⟨inv2, inv3, inv4, inv5⟩
    · have h1 : s.unidirectional = false := by
        cases hu : s.unidirectional
        · rfl
        · exact absurd (Or.inl hu) hfail
      have h2 : (s.closed || s.state.ClosedHere) = false := by
        cases hc : (s.closed || s.state.ClosedHere)
        · rfl
        · exact absurd (Or.inr hc) hfail
      obtain ⟨hst, hwr, hun, hfrm⟩ := write_success_char s data h1 h2
      have hlc : s.state.localClosed = false := by
        cases hcl : s.state.localClosed
        · rfl
        · exfalso
          have : s.state.ClosedHere = true := by
            simpa [StreamState.ClosedHere] using hcl
          rw [this] at h2
          simp at h2
      have hcnt : finCount fr = 0 := by simpa [hlc] using inv5
      simp only [execOp]
      refine ⟨?_, ?_, ?_, ?_⟩
      · intro hq
        rw [hwr] at hq
        cases hq
      · intro hq
        rw [hst, hlc] at hq
        cases hq
      · intro hq
        rw [hun] at hq
        cases hq
      · rw [hst, hlc]
        simp only [Bool.false_eq_true, if_false]
        rw [finCount_append, hcnt, finCount_eq_zero_of_noFin _ hfrm]
  | writeHeaderOp code =>
    by_cases hskip : s.unidirectional = true ∨ s.wroteHeader = true
    · have he := writeHeader_noop s code hskip
      simp only [execOp, he, List.append_nil]
      exact ⟨inv2, inv3, inv4, inv5⟩
    · have h1 : s.unidirectional = false := by
        cases hu : s.unidirectional
        · rfl
        · exact absurd (Or.inl hu) hskip
      have h2 : s.wroteHeader = false := by
        cases hw : s.wroteHeader
        · rfl
        · exact absurd (Or.inr hw) hskip
      have hc := writeHeader_fresh_char s code h1 h2
      have hlc : s.state.localClosed = false := by
        cases hl : s.state.localClosed
        · rfl
        · exfalso
          have := (inv3 hl).1
          rw [h2] at this
          cases this
      have hcnt : finCount fr = 0 := by simpa [hlc] using inv5
      have hpd := inv2 h2
      simp only [execOp]
      by_cases hnb : code = 204 ∨ code = 304 ∨ Int.tdiv code 100 = 1
      · obtain ⟨hstc, hfrc⟩ := hc.2.2.2.1 hnb
        refine ⟨?_, ?_, ?_, ?_⟩
        · intro hq
          rw [hc.1] at hq
          cases hq
        · intro _
          exact ⟨hc.1, by rw [hc.2.2.1]; exact hpd.1, by rw [hc.2.2.1]; exact hpd.2⟩
        · intro hq
          rw [hc.2.1] at hq
          cases hq
        · rw [hstc]
          simp only [if_true]
          refine ⟨fr, Frame.SYN_REPLY s.streamID FLAG_FIN
            (setH (setH s.header ":status" (toString code)) ":version" "HTTP/1.1"),
            [], by rw [hfrc], rfl, hcnt, rfl⟩
      · obtain ⟨hstc, hfrc⟩ := hc.2.2.2.2 hnb
        refine ⟨?_, ?_, ?_, ?_⟩
        · intro hq
          rw [hc.1] at hq
          cases hq
        · intro hq
          rw [hstc, hlc] at hq
          cases hq
        · intro hq
          rw [hc.2.1] at hq
          cases hq
        · rw [hstc, hlc]
          simp only [Bool.false_eq_true, if_false]
          rw [finCount_append, hcnt, hfrc]
          rfl
  | receiveOp f =>
    have hrc := receive_char s f
    simp only [execOp]
    refine ⟨?_, ?_, ?_, ?_⟩
    · intro hq
      rw [hrc.2.1] at hq
      obtain ⟨hpd2, hp2, _⟩ := receive_flow_char s f (inv2 hq).2 (inv2 hq).1
      exact ⟨hp2, hpd2⟩
    · intro hq
      rw [hrc.1] at hq
      have h3 := inv3 hq
      obtain ⟨hpd2, hp2, _⟩ := receive_flow_char s f h3.2.2 h3.2.1
      exact ⟨by rw [hrc.2.1]; exact h3.1, hp2, hpd2⟩
    · intro hq
      rw [hrc.2.2.1] at hq
      have h4 := inv4 hq
      exact ⟨by rw [hrc.2.1]; exact h4.1, by rw [hrc.1]; exact h4.2⟩
    · rw [hrc.1]
      by_cases hl : s.state.localClosed
      · have h3 := inv3 hl
        obtain ⟨_, _, hctl⟩ := receive_flow_char s f h3.2.2 h3.2.1
        rw [hl]
        simp only [if_true]
        have h5 := inv5
        rw [hl] at h5
        simp only [if_true] at h5
        obtain ⟨a, g, b, hfr5, hg, ha, hb⟩ := h5
        refine ⟨a, g, b ++ (s.ReceiveFrame f).2.1, ?_, hg, ha, ?_⟩
        · rw [hfr5]
          simp [List.append_assoc]
        · simp only [List.all_append, Bool.and_eq_true]
          exact ⟨hb, hctl⟩
      · have hlf : s.state.localClosed = false := by simpa using hl
        have hcnt : finCount fr = 0 := by simpa [hlf] using inv5
        rw [hlf]
        simp only [Bool.false_eq_true, if_false]
        rw [finCount_append, hcnt, finCount_eq_zero_of_noFin _ hrc.2.2.2]

/-- The FIN discipline invariant is preserved by any operation
sequence. -/
lemma finInv_execOps (s : ResponseStream) (fr : List Frame) (ops : List Op)
    (hinv : finInv s fr) :
    finInv (execOps s ops).1 (fr ++ (execOps s ops).2) := by
  induction ops generalizing s fr with
  | nil => simpa [execOps] using hinv
  | cons op rest ih =>
    have h1 := finInv_step s fr op hinv
    have h2 := ih (execOp s op).1 (fr ++ (execOp s op).2) h1
    simpa [execOps, List.append_assoc] using h2

/-- No operation changes the direction of the stream. -/
lemma execOp_uni (s : ResponseStream) (op : Op) :
    (execOp s op).1.unidirectional = s.unidirectional := by
  cases op with
  | writeOp data =>
    by_cases hfail : s.unidirectional = true ∨ (s.closed || s.state.ClosedHere) = true
    · simp only [execOp]
      rw [(write_fail_eq s data hfail).1]
    · have h1 : s.unidirectional = false := by
        cases hu : s.unidirectional
        · rfl
        · exact absurd (Or.inl hu) hfail
      have h2 : (s.closed || s.state.ClosedHere) = false := by
        cases hc : (s.closed || s.state.ClosedHere)
        · rfl
        · exact absurd (Or.inr hc) hfail
      simp only [execOp]
      rw [(write_success_char s data h1 h2).2.2.1, h1]
  | writeHeaderOp code =>
    by_cases hskip : s.unidirectional = true ∨ s.wroteHeader = true
    · simp only [execOp]
      rw [writeHeader_noop s code hskip]
    · have h1 : s.unidirectional = false := by
        cases hu : s.unidirectional
        · rfl
        · exact absurd (Or.inl hu) hskip
      have h2 : s.wroteHeader = false := by
        cases hw : s.wroteHeader
        · rfl
        · exact absurd (Or.inr hw) hskip
      simp only [execOp]
      rw [(writeHeader_fresh_char s code h1 h2).2.1, h1]
  | receiveOp f => exact (receive_char s f).2.2.1

/-- No operation sequence changes the direction of the stream. -/
lemma execOps_uni (s : ResponseStream) (ops : List Op) :
    (execOps s ops).1.unidirectional = s.unidirectional := by
  induction ops generalizing s with
  | nil => rfl
  | cons op rest ih =>
    simp only [execOps]
    rw [ih, execOp_uni]

/-- `Flush` emits only FIN-free frames. -/
lemma flow_flush_noFin (f : flowControl) :
    ((f.Flush).2).all (fun g => !hasFinF g) = true := by
  unfold flowControl.Flush
  split <;> simp [hasFinF, finFlag]

/-- `Run`'s finalisation under the FIN discipline invariant: the total
output carries at most one FIN, only control replies follow the FIN, and
a bidirectional lifetime carries exactly one FIN. -/
lemma runFinish_fin (s : ResponseStream) (fr : List Frame) (hinv : finInv s fr) :
    finCount (fr ++ (s.runFinish).2) ≤ 1 ∧
    finLastExceptCtl (fr ++ (s.runFinish).2) = true ∧
    (s.unidirectional = false → finCount (fr ++ (s.runFinish).2) = 1) := by
  obtain ⟨inv2, inv3, inv4, inv5⟩ := hinv
  by_cases hl : s.state.localClosed
  · have h3 := inv3 hl
    have hout : (s.runFinish).2 = [] := by
      unfold ResponseStream.runFinish
      simp [flowControl.Paused, h3.2.2, StreamState.OpenHere, hl]
    rw [hout, List.append_nil]
    have h5 := inv5
    rw [hl] at h5
    simp only [if_true] at h5
    obtain ⟨a, g, b, hfr5, hg, ha, hb⟩ := h5
    subst hfr5
    exact ⟨by rw [finCount_shape a g b ha hg hb],
      finLastExceptCtl_shape a g b ha hg hb,
      fun _ => finCount_shape a g b ha hg hb⟩
  · have hlf : s.state.localClosed = false := by simpa using hl
    have hcnt : finCount fr = 0 := by simpa [hlf] using inv5
    by_cases huni : s.unidirectional
    · have h4 := inv4 huni
      have hpd := inv2 h4.1
      have hout : (s.runFinish).2 = [] := by
        unfold ResponseStream.runFinish
        simp [flowControl.Paused, hpd.2, huni]
      rw [hout, List.append_nil]
      refine ⟨by rw [hcnt]; omega, finLastExceptCtl_of_none fr hcnt, fun hq => ?_⟩
      rw [huni] at hq
      cases hq
    · have hunif : s.unidirectional = false := by simpa using huni
      have hshape : ∃ fl2 g, (s.runFinish).2 = fl2 ++ [g] ∧
          fl2.all (fun x => !hasFinF x) = true ∧ hasFinF g = true := by
        unfold ResponseStream.runFinish
        by_cases hp : s.flow.Paused = true ∧ s.state.OpenThere = true
        · by_cases hw : s.wroteHeader
          · refine ⟨(s.flow.Flush).2, Frame.DATA s.streamID FLAG_FIN [], ?_,
              flow_flush_noFin s.flow, rfl⟩
            simp [hp, hunif, StreamState.OpenHere, hlf, hw]
          · refine ⟨(s.flow.Flush).2, Frame.SYN_REPLY s.streamID FLAG_FIN
              (setH (setH s.header ":status" "200") ":version" "HTTP/1.1"), ?_,
              flow_flush_noFin s.flow, rfl⟩
            simp [hp, hunif, StreamState.OpenHere, hlf, hw]
        · by_cases hw : s.wroteHeader
          · refine ⟨[], Frame.DATA s.streamID FLAG_FIN [], ?_, rfl, rfl⟩
            simp [hp, hunif, StreamState.OpenHere, hlf, hw]
          · refine ⟨[], Frame.SYN_REPLY s.streamID FLAG_FIN
              (setH (setH s.header ":status" "200") ":version" "HTTP/1.1"), ?_, rfl, rfl⟩
            simp [hp, hunif, StreamState.OpenHere, hlf, hw]
      obtain ⟨fl2, g, hout, hfl2, hg⟩ := hshape
      rw [hout]
      have hpre : finCount (fr ++ fl2) = 0 := by
        rw [finCount_append, hcnt, finCount_eq_zero_of_noFin fl2 hfl2]
      have heq : fr ++ (fl2 ++ [g]) = (fr ++ fl2) ++ g :: [] := by
        simp [List.append_assoc]
      rw [heq]
      exact ⟨by rw [finCount_shape _ g [] hpre hg rfl],
        finLastExceptCtl_shape _ g [] hpre hg rfl,
        fun _ => finCount_shape _ g [] hpre hg rfl⟩

/-- Reassembling the four big-endian bytes of a 32-bit value. -/
lemma bytes_recompose32 (n : Nat) (h : n < 4294967296) :
    BytesToUint32 (byte1of4 n) (byte2of4 n) (byte3of4 n) (byte4of4 n) = n := by
  unfold BytesToUint32 byte1of4 byte2of4 byte3of4 byte4of4
  omega

/-- Reassembling the three big-endian bytes of a 24-bit value. -/
lemma bytes_recompose24 (n : Nat) (h : n < 16777216) :
    BytesToUint24 (n / 65536 % 256) (n / 256 % 256) (n % 256) = n := by
  unfold BytesToUint24
  omega

/-! ## Claim theorems -/

/-- C10: `NewResponseStream` replaces a nil handler by
`http.DefaultServeMux` (so the handler reference is never nil), and the
fresh stream has an empty request-body buffer, an empty header map,
`wroteHeader = false` and `responseCode = 0`. -/
theorem claim_C10 (iw : Int) (frame : SynStreamFrame) (h : Option Handler) :
    (h = none → (newResponseStream iw frame h).handler = some Handler.defaultServeMux) ∧
    (newResponseStream iw frame h).handler.isSome = true ∧
    (newResponseStream iw frame h).requestBody = [] ∧
    (newResponseStream iw frame h).header = [] ∧
    (newResponseStream iw frame h).wroteHeader = false ∧
    (newResponseStream iw frame h).responseCode = 0 := by
  refine ⟨?_, ?_, rfl, rfl, rfl, rfl⟩
  · intro he
    subst he
    rfl
  · cases h <;> rfl

/-- Witness for C10 at a concrete SYN_STREAM and a nil handler. -/
theorem claim_C10_witness :
    (newResponseStream 65536 ⟨1, 3, 0, 0, 0, [], none⟩ none).handler =
      some Handler.defaultServeMux ∧
    (newResponseStream 65536 ⟨1, 3, 0, 0, 0, [], none⟩ none).wroteHeader = false := by
  have hq := claim_C10 65536 ⟨1, 3, 0, 0, 0, [], none⟩ none
  exact ⟨hq.1 rfl, hq.2.2.2.2.1⟩

/-- C1 (amended): a WINDOW_UPDATE whose delta would push the send window
above 2^31 - 1 makes `ReceiveFrame` emit exactly one
RST_STREAM(FLOW_CONTROL_ERROR) with the stream's own ID and return the
error, while the stream — its state included — is left unchanged (it is
not transitioned to CLOSED by `ReceiveFrame` itself). -/
theorem claim_C1 (s : ResponseStream) (sid delta : Nat)
    (h : s.flow.sendWindow + (delta : Int) > 2147483647) :
    s.ReceiveFrame (some (Frame.WINDOW_UPDATE sid delta)) =
      (s, [Frame.RST_STREAM s.streamID RST_STREAM_FLOW_CONTROL_ERROR],
       some "Error: flow control window exceeds maximum.") := by
  unfold ResponseStream.ReceiveFrame flowControl.UpdateWindow
  simp [h]

/-- Witness for C1: a send window of 2^31 - 5 and a delta of 10. -/
theorem claim_C1_witness :
    (newResponseStream 2147483643 ⟨0, 1, 0, 0, 0, [], none⟩ none).ReceiveFrame
        (some (Frame.WINDOW_UPDATE 1 10)) =
      (newResponseStream 2147483643 ⟨0, 1, 0, 0, 0, [], none⟩ none,
       [Frame.RST_STREAM 1 RST_STREAM_FLOW_CONTROL_ERROR],
       some "Error: flow control window exceeds maximum.") :=
  claim_C1 (newResponseStream 2147483643 ⟨0, 1, 0, 0, 0, [], none⟩ none) 1 10 (by decide)

/-- Counterexample to C1 as stated: with `send_window = 2^31 - 5` and a
WINDOW_UPDATE of delta 10, `ReceiveFrame` does emit the RST_STREAM and
return an error, but the stream state afterwards is not CLOSED. -/
theorem claim_C1_counterexample :
    (((newResponseStream 2147483643 ⟨0, 1, 0, 0, 0, [], none⟩ none).ReceiveFrame
        (some (Frame.WINDOW_UPDATE 1 10))).2.1 =
      [Frame.RST_STREAM 1 RST_STREAM_FLOW_CONTROL_ERROR]) ∧
    (((newResponseStream 2147483643 ⟨0, 1, 0, 0, 0, [], none⟩ none).ReceiveFrame
        (some (Frame.WINDOW_UPDATE 1 10))).2.2.isSome = true) ∧
    ¬ (((newResponseStream 2147483643 ⟨0, 1, 0, 0, 0, [], none⟩ none).ReceiveFrame
        (some (Frame.WINDOW_UPDATE 1 10))).1.state.Closed = true) := by
  refine ⟨?_, ?_, ?_⟩ <;> decide

/-- C2: when the handler invocation inside `Run` returns, the emitted
frames are the flow-control flush followed by exactly the trailing frame
the spec's table prescribes (SYN_REPLY with FIN, 200 status and the
pending headers if no header was written; an empty FIN DATA frame if one
was; nothing if unidirectional or already half-closed locally), and
`Run` then applies `CloseHere` to the state. -/
theorem claim_C2 (s : ResponseStream) :
    (s.runFinish).2 = flushPart s ++ trailingSpec s ∧
    (s.runFinish).1.state = s.state.CloseHere := by
  unfold ResponseStream.runFinish flushPart trailingSpec
  cases hfl : s.flow.Paused && s.state.OpenThere <;>
  cases huni : s.unidirectional <;>
  cases hoh : s.state.OpenHere <;>
  cases hw : s.wroteHeader <;>
  simp [hfl, huni, hoh, hw]

/-- C5: `WriteHeader` with a 204, 304 or 1xx status on a bidirectional
stream that has not yet written its header emits a SYN_REPLY carrying
FIN, applies `CloseHere` to the state, and the trailing-frame logic then
emits nothing (in particular no DATA frame). -/
theorem claim_C5 (s : ResponseStream) (code : Int)
    (hcode : code = 204 ∨ code = 304 ∨ (100 ≤ code ∧ code ≤ 199))
    (huni : s.unidirectional = false) (hw : s.wroteHeader = false) :
    (s.WriteHeader code).2 =
      [Frame.SYN_REPLY s.streamID FLAG_FIN
        (setH (setH s.header ":status" (toString code)) ":version" "HTTP/1.1")] ∧
    (s.WriteHeader code).1.state = s.state.CloseHere ∧
    trailingSpec (s.WriteHeader code).1 = [] := by
  have hnb : code = 204 ∨ code = 304 ∨ Int.tdiv code 100 = 1 := by
    rcases hcode with h | h | h
    · exact Or.inl h
    · exact Or.inr (Or.inl h)
    · exact Or.inr (Or.inr (tdiv100_one h.1 h.2))
  unfold ResponseStream.WriteHeader trailingSpec
  simp [huni, hw, hnb, StreamState.OpenHere, StreamState.CloseHere]

/-- Witness for C5 at a concrete stream and the 204 status. -/
theorem claim_C5_witness :
    ((newResponseStream 10 ⟨1, 5, 0, 0, 0, [], none⟩ none).WriteHeader 204).2 =
      [Frame.SYN_REPLY 5 FLAG_FIN
        (setH (setH [] ":status" "204") ":version" "HTTP/1.1")] ∧
    ((newResponseStream 10 ⟨1, 5, 0, 0, 0, [], none⟩ none).WriteHeader 204).1.state =
      (newResponseStream 10 ⟨1, 5, 0, 0, 0, [], none⟩ none).state.CloseHere ∧
    trailingSpec ((newResponseStream 10 ⟨1, 5, 0, 0, 0, [], none⟩ none).WriteHeader 204).1 = [] :=
  claim_C5 (newResponseStream 10 ⟨1, 5, 0, 0, 0, [], none⟩ none) 204
    (Or.inl rfl) rfl rfl

/-- C6: `Write` on a unidirectional stream fails with the
"unidirectional" error, and `Write` on a closed stream (stop fired,
shutdown run, or local side half-closed) fails with the "already closed"
error; in both cases no frame is emitted, zero bytes are reported, and
the stream — state, header map and `wroteHeader` flag included — is
unchanged. -/
theorem claim_C6 (s : ResponseStream) (input : List Nat) :
    (s.unidirectional = true →
      s.Write input = (s, [], 0, some "Error: Stream is unidirectional.")) ∧
    (s.unidirectional = false → (s.closed = true ∨ s.state.ClosedHere = true) →
      s.Write input = (s, [], 0, some "Error: Stream already closed.")) := by
  constructor
  · intro h
    unfold ResponseStream.Write
    simp [h]
  · intro h1 h2
    unfold ResponseStream.Write
    rcases h2 with h2 | h2 <;> simp [h1, h2]

/-- Witness for C6: a concrete unidirectional stream and a concrete
stream whose stop signal has fired. -/
theorem claim_C6_witness :
    ((newResponseStream 10 ⟨2, 7, 0, 0, 0, [], none⟩ none).Write [1, 2] =
      (newResponseStream 10 ⟨2, 7, 0, 0, 0, [], none⟩ none, [], 0,
       some "Error: Stream is unidirectional.")) ∧
    (({ newResponseStream 10 ⟨0, 9, 0, 0, 0, [], none⟩ none with stopFired := true }).Write [1] =
      ({ newResponseStream 10 ⟨0, 9, 0, 0, 0, [], none⟩ none with stopFired := true }, [], 0,
       some "Error: Stream already closed.")) :=
  ⟨(claim_C6 (newResponseStream 10 ⟨2, 7, 0, 0, 0, [], none⟩ none) [1, 2]).1 rfl,
   (claim_C6 ({ newResponseStream 10 ⟨0, 9, 0, 0, 0, [], none⟩ none with stopFired := true }) [1]).2
     rfl (Or.inl rfl)⟩

/-- C7: `Close()` is idempotent — N calls, N ≥ 1, leave the stream and
the emitted frames exactly as one call does (shutdown runs once), and
every `Close` call returns nil. -/
theorem claim_C7 (s : ResponseStream) (n : Nat) (h : 1 ≤ n) :
    closeIterAux n s = closeIterAux 1 s ∧
    ∀ t : ResponseStream, (t.Close).2.2 = none := by
  constructor
  · obtain ⟨m, rfl⟩ : ∃ m, n = m + 1 := ⟨n - 1, by omega⟩
    show closeIterAux (m + 1) s = closeIterAux 1 s
    unfold closeIterAux
    simp only [closeIter_of_done m _ (close_sets_done s),
      closeIter_of_done 0 _ (close_sets_done s)]
  · intro t
    unfold ResponseStream.Close
    by_cases ht : t.shutdownDone <;> simp [ht]

/-- C3: over any sequence of handler `Write` and `WriteHeader` calls on
a fresh response stream, either no frame at all has been submitted to
the output sink, or the first submitted frame is a SYN_REPLY — hence the
SYN_REPLY precedes every DATA frame of the stream (the implicit
`WriteHeader(200)` inside `Write` enforces this). -/
theorem claim_C3 (iw : Int) (frame : SynStreamFrame) (h : Option Handler)
    (ops : List Op) (hops : ∀ op ∈ ops, op.isHandlerOp = true) :
    (execOps (newResponseStream iw frame h) ops).2 = [] ∨
    ∃ g tl, (execOps (newResponseStream iw frame h) ops).2 = g :: tl ∧
      isSynReplyF g = true := by
  have hinv0 : headInv (newResponseStream iw frame h) [] := by
    constructor
    · intro hw
      simp [newResponseStream] at hw
    · intro g tl habs
      cases habs
  have hfin := headInv_execOps (newResponseStream iw frame h) [] ops hops hinv0
  rw [List.nil_append] at hfin
  rcases hex : (execOps (newResponseStream iw frame h) ops).2 with _ | ⟨g, tl⟩
  · exact Or.inl rfl
  · exact Or.inr ⟨g, tl, rfl, hfin.2 g tl hex⟩

/-- Witness for C3: a single `Write` on a fresh stream emits a
SYN_REPLY first. -/
theorem claim_C3_witness :
    (execOps (newResponseStream 10 ⟨0, 1, 0, 0, 0, [], none⟩ none)
        [Op.writeOp [1, 2, 3]]).2 = [] ∨
    ∃ g tl, (execOps (newResponseStream 10 ⟨0, 1, 0, 0, 0, [], none⟩ none)
        [Op.writeOp [1, 2, 3]]).2 = g :: tl ∧ isSynReplyF g = true :=
  claim_C3 10 ⟨0, 1, 0, 0, 0, [], none⟩ none [Op.writeOp [1, 2, 3]] (by decide)

/-- C4 (amended): over any completed lifetime of a stream at most one
outbound frame carries FIN; every frame emitted after the FIN frame is a
receive-path control reply (an RST_STREAM error reply or a WINDOW_UPDATE
for recv accounting), so the FIN frame is the last response frame; and a
completed non-unidirectional lifetime carries exactly one FIN. -/
theorem claim_C4 (iw : Int) (frame : SynStreamFrame) (h : Option Handler)
    (ops : List Op) :
    finCount (lifetimeFrames iw frame h ops) ≤ 1 ∧
    finLastExceptCtl (lifetimeFrames iw frame h ops) = true ∧
    (uniFlag frame.Flags = false → finCount (lifetimeFrames iw frame h ops) = 1) := by
  have hlc0 : (newResponseStream iw frame h).state.localClosed = false := by
    unfold newResponseStream
    by_cases hb : finFlag frame.Flags <;> simp [hb, StreamState.CloseThere]
  have hinv0 : finInv (newResponseStream iw frame h) [] := by
    refine ⟨?_, ?_, ?_, ?_⟩
    · intro _
      exact ⟨rfl, rfl⟩
    · intro hq
      rw [hlc0] at hq
      cases hq
    · intro _
      exact ⟨rfl, hlc0⟩
    · rw [hlc0]
      simp [finCount]
  have hinvf := finInv_execOps (newResponseStream iw frame h) [] ops hinv0
  rw [List.nil_append] at hinvf
  have hfin := runFinish_fin (execOps (newResponseStream iw frame h) ops).1
    (execOps (newResponseStream iw frame h) ops).2 hinvf
  have hL : lifetimeFrames iw frame h ops =
      (execOps (newResponseStream iw frame h) ops).2 ++
      ((execOps (newResponseStream iw frame h) ops).1.runFinish).2 := rfl
  have huni : (execOps (newResponseStream iw frame h) ops).1.unidirectional =
      uniFlag frame.Flags := execOps_uni (newResponseStream iw frame h) ops
  rw [hL]
  exact ⟨hfin.1, hfin.2.1, fun hq => hfin.2.2 (by rw [huni, hq])⟩

/-- Witness for C4: an empty lifetime of a bidirectional stream whose
SYN_STREAM carried FIN emits exactly one FIN frame. -/
theorem claim_C4_witness :
    finCount (lifetimeFrames 10 ⟨1, 1, 0, 0, 0, [], none⟩ none []) = 1 :=
  (claim_C4 10 ⟨1, 1, 0, 0, 0, [], none⟩ none []).2.2 (by decide)

/-- Counterexample to C4 as stated: after `WriteHeader(204)` has emitted
the FIN-carrying SYN_REPLY, a WINDOW_UPDATE overflow still makes the
stream emit an RST_STREAM, so the FIN-carrying frame is not the last
frame the stream emits. -/
theorem claim_C4_counterexample :
    finLastStrict (lifetimeFrames 2147483643 ⟨0, 1, 0, 0, 0, [], none⟩ none
      [Op.writeHeaderOp 204,
       Op.receiveOp (some (Frame.WINDOW_UPDATE 1 10))]) = false := by
  decide

/-- C8 (amended): for a SYN_STREAM frame with a compressed header block,
a valid non-zero stream ID, a valid associated stream ID, flags limited
to FIN and UNIDIRECTIONAL, a 3-bit priority, a one-byte slot, and a
header block that fits the maximum frame size, decoding the bytes
produced by `WriteTo` via `ReadFrom` succeeds and agrees with the
original frame on Flags, StreamID, AssocStreamID, Priority, Slot and raw
header block. -/
theorem claim_C8 (frame : SynStreamFrame) (hb : List Nat)
    (hraw : frame.rawHeader = some hb)
    (hsid : frame.StreamID < 2147483648) (hsid0 : frame.StreamID ≠ 0)
    (hassoc : frame.AssocStreamID < 2147483648)
    (hflags : frame.Flags < 4) (hprio : frame.Priority < 8) (hslot : frame.Slot < 256)
    (hlen : hb.length ≤ MAX_FRAME_SIZE - 28) :
    ∃ out g n, frame.WriteTo = Except.ok out ∧
      SynStreamFrame.ReadFrom out = Except.ok (g, n) ∧
      g.Flags = frame.Flags ∧ g.StreamID = frame.StreamID ∧
      g.AssocStreamID = frame.AssocStreamID ∧ g.Priority = frame.Priority ∧
      g.Slot = frame.Slot ∧ g.rawHeader = frame.rawHeader := by
  have hM : MAX_FRAME_SIZE = 16777215 := rfl
  have hL24 : 10 + hb.length < 16777216 := by omega
  have hfl : frame.Flags % 256 = frame.Flags := Nat.mod_eq_of_lt (by omega)
  have hsl : frame.Slot % 256 = frame.Slot := Nat.mod_eq_of_lt hslot
  have hpr : frame.Priority * 32 % 256 = frame.Priority * 32 :=
    Nat.mod_eq_of_lt (by omega)
  have hwt : frame.WriteTo = Except.ok ([128, 3, 0, 1, frame.Flags % 256,
      (10 + hb.length) / 65536 % 256, (10 + hb.length) / 256 % 256, (10 + hb.length) % 256,
      byte1of4 frame.StreamID, byte2of4 frame.StreamID,
      byte3of4 frame.StreamID, byte4of4 frame.StreamID,
      byte1of4 frame.AssocStreamID, byte2of4 frame.AssocStreamID,
      byte3of4 frame.AssocStreamID, byte4of4 frame.AssocStreamID,
      frame.Priority * 32 % 256, frame.Slot % 256] ++ hb) := by
    unfold SynStreamFrame.WriteTo
    rw [hraw]
    dsimp only
    rw [if_neg (by simp [streamIDValid, hsid]), if_neg (by simp [hsid0]),
      if_neg (by simp [streamIDValid, hassoc])]
  have hrd : SynStreamFrame.ReadFrom ([128, 3, 0, 1, frame.Flags % 256,
      (10 + hb.length) / 65536 % 256, (10 + hb.length) / 256 % 256, (10 + hb.length) % 256,
      byte1of4 frame.StreamID, byte2of4 frame.StreamID,
      byte3of4 frame.StreamID, byte4of4 frame.StreamID,
      byte1of4 frame.AssocStreamID, byte2of4 frame.AssocStreamID,
      byte3of4 frame.AssocStreamID, byte4of4 frame.AssocStreamID,
      frame.Priority * 32 % 256, frame.Slot % 256] ++ hb) =
      Except.ok
        (({ Flags := frame.Flags, StreamID := frame.StreamID,
            AssocStreamID := frame.AssocStreamID, Priority := frame.Priority,
            Slot := frame.Slot, Header := [], rawHeader := some hb } : SynStreamFrame),
          10 + hb.length + 8) := by
    simp only [List.cons_append, List.nil_append, SynStreamFrame.ReadFrom]
    rw [if_neg (by decide)]
    rw [hfl, if_neg (by omega)]
    rw [bytes_recompose24 (10 + hb.length) hL24]
    rw [if_neg (by omega)]
    rw [if_neg (by rw [hM]; omega)]
    rw [if_neg (by omega)]
    rw [bytes_recompose32 frame.StreamID (by omega),
      bytes_recompose32 frame.AssocStreamID (by omega)]
    rw [if_neg (by simp [streamIDValid, hsid]), if_neg (by simp [hsid0]),
      if_neg (by simp [streamIDValid, hassoc])]
    rw [hpr, Nat.mul_div_cancel frame.Priority (by norm_num), hsl]
    rw [show 10 + hb.length - 10 = hb.length by omega, List.take_length]
  exact ⟨_, _, _, hwt, hrd, rfl, rfl, rfl, rfl, rfl, hraw.symm⟩

/-- Witness for C8 at a concrete frame with a two-byte header block. -/
theorem claim_C8_witness :
    ∃ out g n,
      SynStreamFrame.WriteTo ⟨1, 5, 2, 3, 7, [], some [9, 9]⟩ = Except.ok out ∧
      SynStreamFrame.ReadFrom out = Except.ok (g, n) ∧
      g.Flags = SynStreamFrame.Flags ⟨1, 5, 2, 3, 7, [], some [9, 9]⟩ ∧
      g.StreamID = SynStreamFrame.StreamID ⟨1, 5, 2, 3, 7, [], some [9, 9]⟩ ∧
      g.AssocStreamID = SynStreamFrame.AssocStreamID ⟨1, 5, 2, 3, 7, [], some [9, 9]⟩ ∧
      g.Priority = SynStreamFrame.Priority ⟨1, 5, 2, 3, 7, [], some [9, 9]⟩ ∧
      g.Slot = SynStreamFrame.Slot ⟨1, 5, 2, 3, 7, [], some [9, 9]⟩ ∧
      g.rawHeader = SynStreamFrame.rawHeader ⟨1, 5, 2, 3, 7, [], some [9, 9]⟩ :=
  claim_C8 ⟨1, 5, 2, 3, 7, [], some [9, 9]⟩ [9, 9] rfl (by decide) (by decide)
    (by decide) (by decide) (by decide) (by decide) (by decide)

/-- Counterexample to C8 as stated: a frame whose flags byte is 0x04 —
outside FIN and UNIDIRECTIONAL — has a valid non-zero stream ID, a valid
associated stream ID and a compressed header block, yet decoding the
bytes `WriteTo` produces fails, so the round-trip does not return the
frame. -/
theorem claim_C8_counterexample :
    SynStreamFrame.StreamID ⟨4, 1, 0, 0, 0, [], some []⟩ ≠ 0 ∧
    streamIDValid (SynStreamFrame.StreamID ⟨4, 1, 0, 0, 0, [], some []⟩) = true ∧
    streamIDValid (SynStreamFrame.AssocStreamID ⟨4, 1, 0, 0, 0, [], some []⟩) = true ∧
    (SynStreamFrame.rawHeader ⟨4, 1, 0, 0, 0, [], some []⟩).isSome = true ∧
    roundTripStated ⟨4, 1, 0, 0, 0, [], some []⟩ = false := by
  refine ⟨by decide, by decide, by decide, rfl, ?_⟩
  decide

/-- C9: on a well-formed byte input (valid control prefix, flags limited
to FIN and UNIDIRECTIONAL, enough bytes for the advertised length),
`ReadFrom` returns an error exactly when the 24-bit length field is
below 10 or above MAX_FRAME_SIZE - 18, or the decoded stream ID is zero
or has its high bit set, or the decoded associated stream ID has its
high bit set; otherwise it succeeds and reports length + 8 bytes read. -/
theorem claim_C9 (b4 l1 l2 l3 c0 c1 c2 c3 d0 d1 d2 d3 e0 e1 : Nat)
    (rest : List Nat) (hb4 : b4 < 4)
    (hrest : BytesToUint24 l1 l2 l3 ≤ rest.length + 10) :
    ((BytesToUint24 l1 l2 l3 < 10 ∨ BytesToUint24 l1 l2 l3 > MAX_FRAME_SIZE - 18 ∨
        BytesToUint32 c0 c1 c2 c3 = 0 ∨ 2147483648 ≤ BytesToUint32 c0 c1 c2 c3 ∨
        2147483648 ≤ BytesToUint32 d0 d1 d2 d3) →
      ∃ e, SynStreamFrame.ReadFrom (128 :: 3 :: 0 :: 1 :: b4 :: l1 :: l2 :: l3 ::
        c0 :: c1 :: c2 :: c3 :: d0 :: d1 :: d2 :: d3 :: e0 :: e1 :: rest) =
        Except.error e) ∧
    (¬(BytesToUint24 l1 l2 l3 < 10 ∨ BytesToUint24 l1 l2 l3 > MAX_FRAME_SIZE - 18 ∨
        BytesToUint32 c0 c1 c2 c3 = 0 ∨ 2147483648 ≤ BytesToUint32 c0 c1 c2 c3 ∨
        2147483648 ≤ BytesToUint32 d0 d1 d2 d3) →
      ∃ g, SynStreamFrame.ReadFrom (128 :: 3 :: 0 :: 1 :: b4 :: l1 :: l2 :: l3 ::
        c0 :: c1 :: c2 :: c3 :: d0 :: d1 :: d2 :: d3 :: e0 :: e1 :: rest) =
        Except.ok (g, BytesToUint24 l1 l2 l3 + 8)) := by
  have hM : MAX_FRAME_SIZE = 16777215 := rfl
  constructor
  · intro hbad
    simp only [SynStreamFrame.ReadFrom]
    rw [if_neg (by decide), if_neg (by omega)]
    by_cases h10 : BytesToUint24 l1 l2 l3 < 10
    · rw [if_pos h10]
      exact ⟨_, rfl⟩
    · rw [if_neg h10]
      by_cases hmax : BytesToUint24 l1 l2 l3 > MAX_FRAME_SIZE - 18
      · rw [if_pos hmax]
        exact ⟨_, rfl⟩
      · rw [if_neg hmax, if_neg (by omega)]
        by_cases hv1 : streamIDValid (BytesToUint32 c0 c1 c2 c3) = true
        · rw [if_neg (by simp [hv1])]
          by_cases hz : BytesToUint32 c0 c1 c2 c3 = 0
          · rw [if_pos (by simp [hz])]
            exact ⟨_, rfl⟩
          · rw [if_neg (by simp [hz])]
            by_cases hv2 : streamIDValid (BytesToUint32 d0 d1 d2 d3) = true
            · exfalso
              simp only [streamIDValid, decide_eq_true_eq] at hv1 hv2
              rcases hbad with h | h | h | h | h
              · exact h10 h
              · exact hmax h
              · exact hz h
              · omega
              · omega
            · rw [if_pos (by simp at hv2 ⊢; simpa using hv2)]
              exact ⟨_, rfl⟩
        · rw [if_pos (by simp at hv1 ⊢; simpa using hv1)]
          exact ⟨_, rfl⟩
  · intro hgood
    push_neg at hgood
    obtain ⟨hg1, hg2, hg3, hg4, hg5⟩ := hgood
    simp only [SynStreamFrame.ReadFrom]
    rw [if_neg (by decide), if_neg (by omega), if_neg (by omega), if_neg (by omega),
      if_neg (by omega)]
    rw [if_neg (by simp [streamIDValid]; omega), if_neg (by simp [hg3]),
      if_neg (by simp [streamIDValid]; omega)]
    exact ⟨_, rfl⟩

/-- Witness for C9: a concrete well-formed 18-byte SYN_STREAM prefix
with length 10 decodes successfully, reading 18 bytes. -/
theorem claim_C9_witness :
    ∃ g, SynStreamFrame.ReadFrom (128 :: 3 :: 0 :: 1 :: 1 :: 0 :: 0 :: 10 ::
      0 :: 0 :: 0 :: 3 :: 0 :: 0 :: 0 :: 0 :: 64 :: 2 :: ([] : List Nat)) =
      Except.ok (g, BytesToUint24 0 0 10 + 8) :=
  (claim_C9 1 0 0 10 0 0 0 3 0 0 0 0 64 2 [] (by decide) (by decide)).2 (by decide)

/-- Witness for C7: three calls equal one call on a concrete stream. -/
theorem claim_C7_witness :
    closeIterAux 3 (newResponseStream 10 ⟨0, 1, 0, 0, 0, [], none⟩ none) =
      closeIterAux 1 (newResponseStream 10 ⟨0, 1, 0, 0, 0, [], none⟩ none) :=
  (claim_C7 (newResponseStream 10 ⟨0, 1, 0, 0, 0, [], none⟩ none) 3 (by omega)).1

end Spdy3
